import Mathlib

/-!
Shallow embedding of the NATS pub/sub provisioning layer of the
`notifier-deploy` repository.

The primary source is `src/unnamed/part_000` (class `PubSubServiceImpl`:
`Subscribe`, `updateConsumer`, `addOrUpdateStream`, `checkConfigChangeReqd`,
`getJsonString`, `getStreamConfig`).  `src/src/pubSub/pubSub.ts` is an older
variant of the same class; its delivery callback (lines 71–80) differs from
the one in `part_000` (lines 57–65) and is embedded separately.

Broker round trips are modelled by passing each call's outcome
(`Except JsErr …`) as an explicit parameter, and every function additionally
returns the trace of broker calls, warnings and sleeps it performed
(`List BrokerAction`).  JavaScript `undefined` for strings is modelled as
`Option String` (`JStr`), and a JS exception as the `JsErr` type: a
`NatsError` carries `api_error.err_code`, any other thrown value is
`typeError` (property access on `undefined`) or `other`.
-/

/-- A JavaScript string-or-undefined value: `none` is `undefined`. -/
abbrev JStr := Option String

/-- A thrown JavaScript value, as far as the code distinguishes them:
`nats code` is a `NatsError` whose `api_error.err_code` is `code`;
`typeError` is the `TypeError` raised by a property access on `undefined`;
`other` is any other thrown value (not `instanceof NatsError`). -/
inductive JsErr where
  | nats (code : Nat)
  | typeError
  | other
deriving DecidableEq, Repr

/-- `AckPolicy` from the nats client (only the members this code uses). -/
inductive AckPolicy where
  | Explicit
  | All
deriving DecidableEq, Repr

/-- `DeliverPolicy` from the nats client (only the members this code uses). -/
inductive DeliverPolicy where
  | Last
  | All
deriving DecidableEq, Repr

/-- Broker-side `StreamConfig` restricted to the fields this code reads or
writes: `name`, `max_age`, `subjects`, `num_replicas`.  `name : JStr`
because `getStreamConfig` builds an object without a `name` field
(JS `undefined`) and `addOrUpdateStream` later assigns it. -/
structure StreamCfg where
  name : JStr
  max_age : Int
  subjects : List JStr
  num_replicas : Int
deriving DecidableEq, Repr

/-- Broker-side consumer configuration (`ConsumerInfo.config`) restricted to
the fields this code reads or writes: `ack_wait` and `num_replicas`. -/
structure ConsumerCfg where
  ack_wait : Int
  num_replicas : Int
deriving DecidableEq, Repr

/-- `NatsConsumerConfig` from `./utils` (desired consumer configuration):
the two fields `part_000` reads are `ack_wait` and `num_replicas`. -/
structure NatsConsumerConfig where
  ack_wait : Int
  num_replicas : Int
deriving DecidableEq, Repr

/-- `NatsStreamConfig` from `./utils` (desired stream configuration):
the only field `part_000` reads is `max_age`. -/
structure NatsStreamConfig where
  max_age : Int
deriving DecidableEq, Repr

/-- `NatsTopic` from `./utils`: the topology binding for one topic. -/
structure NatsTopic where
  streamName : String
  consumerName : String
  queueName : String
deriving DecidableEq, Repr

/-- The full argument object passed to `jsm.consumers.add` in `part_000`
(lines 95–105). -/
structure ConsumerAddCfg where
  name : String
  deliver_subject : String
  durable_name : String
  ack_wait : Int
  num_replicas : Int
  filter_subject : String
  deliver_group : String
  ack_policy : AckPolicy
  deliver_policy : DeliverPolicy
deriving DecidableEq, Repr

/-- One observable step of the provisioning flow: a broker call (with the
configuration it carried), a logged warning, or a backoff sleep. -/
inductive BrokerAction where
  | streamInfo (stream : String)
  | streamUpdate (stream : String) (cfg : StreamCfg)
  | streamAdd (cfg : StreamCfg)
  | consumerInfo (stream consumer : String)
  | consumerUpdate (stream consumer : String) (cfg : ConsumerCfg)
  | consumerAdd (stream : String) (cfg : ConsumerAddCfg)
  | subscribe (subject : String)
  | warn (msg : String)
  | sleep (ms : Nat)
deriving DecidableEq, Repr

/-- JS `arr[0]`: the first element, or `undefined` on an empty array. -/
def jsIndex0 (l : List JStr) : JStr :=
  match l with
  | [] => none
  | x :: _ => x

/-- `checkConfigChangeReqd` (`part_000` lines 205–218).  The source mutates
`existingStreamInfo` in place and returns the `configChanged` flag; the
embedding returns the flag together with the mutated value.
Rule 1: a nonzero desired `max_age` that differs from the actual one is
copied over.  Rule 2: if `toUpdateConfig.subjects[0]` is not already in
`existingStreamInfo.subjects`, it is appended (`push`), never replacing the
set. -/
def checkConfigChangeReqd (existingStreamInfo toUpdateConfig : StreamCfg) :
    Bool × StreamCfg :=
  let r1 :=
    if toUpdateConfig.max_age ≠ 0 ∧ toUpdateConfig.max_age ≠ existingStreamInfo.max_age then
      (true, { existingStreamInfo with max_age := toUpdateConfig.max_age })
    else
      (false, existingStreamInfo)
  let s := jsIndex0 toUpdateConfig.subjects
  if r1.2.subjects.contains s then
    r1
  else
    (true, { r1.2 with subjects := r1.2.subjects ++ [s] })

/-- `getStreamConfig` (`part_000` lines 228–235): builds the desired broker
stream configuration from the utils-level config.  The source object carries
only `max_age` and `subjects` (its `num_replicas` line is commented out and
its `name` is `undefined` until `addOrUpdateStream` assigns it); the
embedding fills the unread `num_replicas` field with `0`.
`GetStreamSubjects` lives in the missing `./utils` module and is passed in
as a function parameter. -/
def getStreamConfig (streamConfig : NatsStreamConfig) (streamName : String)
    (getSubjects : String → List JStr) : StreamCfg :=
  { name := none
    max_age := streamConfig.max_age
    subjects := getSubjects streamName
    num_replicas := 0 }

/-- The message the source logs for the non-clustered replica guard
(`part_000` lines 89 and 146). -/
def warnMsg : String := "replicas > 1 is not possible in non clustered mode"

/-- The value `updateConsumer`'s `catch` block produces for a thrown `err`
(`part_000` lines 159–167): a `NatsError` with `api_error.err_code` 10014
(consumer not found) makes the function return `true`; every other thrown
value falls through to the final `return false`. -/
def catchRet (e : JsErr) : Bool :=
  match e with
  | .nats 10014 => true
  | _ => false

/-- `updateConsumer` (`part_000` lines 131–170).  Parameters `infoRes`,
`streamInfoRes` and `updateRes` are the outcomes of the three broker calls
`jsm.consumers.info`, `jsm.streams.info` and `jsm.consumers.update`;
`cluster` is `nc.info.cluster` (`none` = non-clustered).  Returns the
function's boolean result ("create a new consumer") and the trace of calls
and warnings.  In the source `jsm.consumers.info` either resolves with a
`ConsumerInfo` or rejects, so the `if (info)` guard is modelled as always
taken on the `ok` branch; a rejection anywhere inside the `try` lands in the
single `catch`, whose result is `catchRet`. -/
def updateConsumer (streamName consumerName : String)
    (consumerConfiguration : NatsConsumerConfig)
    (infoRes : Except JsErr ConsumerCfg)
    (streamInfoRes : Except JsErr StreamCfg)
    (updateRes : Except JsErr Unit)
    (cluster : Option String) : Bool × List BrokerAction :=
  let t0 : List BrokerAction := [.consumerInfo streamName consumerName]
  match infoRes with
  | .error e => (catchRet e, t0)
  | .ok info0 =>
    let upd1 : Bool :=
      consumerConfiguration.ack_wait > 0 ∧ info0.ack_wait ≠ consumerConfiguration.ack_wait
    let info1 :=
      if upd1 then { info0 with ack_wait := consumerConfiguration.ack_wait } else info0
    let t1 := t0 ++ [.streamInfo streamName]
    match streamInfoRes with
    | .error e => (catchRet e, t1)
    | .ok streamInfo =>
      let info2 :=
        if consumerConfiguration.num_replicas = 0 then
          { info1 with num_replicas := streamInfo.num_replicas }
        else info1
      let step3 : ConsumerCfg × Bool × List BrokerAction :=
        if consumerConfiguration.num_replicas > 0 ∧
            info2.num_replicas ≠ consumerConfiguration.num_replicas then
          if consumerConfiguration.num_replicas > 1 ∧ cluster = none then
            (info2, upd1, t1 ++ [.warn warnMsg])
          else
            ({ info2 with num_replicas := consumerConfiguration.num_replicas }, true, t1)
        else (info2, upd1, t1)
      let info3 := step3.1
      let t2 := step3.2.2
      if step3.2.1 then
        let t3 := t2 ++ [.consumerUpdate streamName consumerName info3]
        match updateRes with
        | .error e => (catchRet e, t3)
        | .ok _ => (false, t3)
      else (false, t2)

/-- Builds the argument object of the `jsm.consumers.add` call in
`Subscribe` (`part_000` lines 95–105). -/
def mkAddCfg (topic streamName consumerName queueName inbox : String)
    (consumerConfiguration : NatsConsumerConfig) : ConsumerAddCfg :=
  { name := consumerName
    deliver_subject := inbox
    durable_name := consumerName
    ack_wait := consumerConfiguration.ack_wait
    num_replicas := consumerConfiguration.num_replicas
    filter_subject := topic
    deliver_group := queueName
    ack_policy := .Explicit
    deliver_policy := .Last }

/-- The consumer-creation block of `Subscribe` (`part_000` lines 86–110),
executed when `updateConsumer` returned `true`.  If the desired
`num_replicas` exceeds 1 on a non-clustered connection, the code warns and
fetches the stream info; when that fetch succeeds it overwrites
`consumerConfiguration.num_replicas` with the stream's replica count (the
source's `if (streamInfo)` guard is always taken, since `jsm.streams.info`
either resolves with an info object or rejects).  The block's `try`/`catch`
swallows every failure, so a rejected stream fetch merely skips the
`consumers.add` call, and a rejected add (`addRes`) changes nothing
observable beyond the attempted call itself.  The mutation of the shared
`consumerConfiguration` object persists, so the possibly-updated value is
returned alongside the trace. -/
def createConsumerBlock (topic streamName consumerName queueName inbox : String)
    (consumerConfiguration : NatsConsumerConfig)
    (cluster : Option String)
    (streamInfoRes : Except JsErr StreamCfg)
    (addRes : Except JsErr Unit) : List BrokerAction × NatsConsumerConfig :=
  if consumerConfiguration.num_replicas > 1 ∧ cluster = none then
    match streamInfoRes with
    | .error _ => ([.warn warnMsg, .streamInfo streamName], consumerConfiguration)
    | .ok streamInfo =>
      let cc := { consumerConfiguration with num_replicas := streamInfo.num_replicas }
      ([.warn warnMsg, .streamInfo streamName,
        .consumerAdd streamName (mkAddCfg topic streamName consumerName queueName inbox cc)],
       cc)
  else
    ([.consumerAdd streamName
        (mkAddCfg topic streamName consumerName queueName inbox consumerConfiguration)],
     consumerConfiguration)

/-- `addOrUpdateStream` (`part_000` lines 172–203).  `infoRes` is the
outcome of `jsm.streams.info`; `updateRes` and `addRes` the outcomes of the
`streams.update` / `streams.add` calls (both are caught and logged in the
source, so they affect nothing observable beyond the attempted call, and the
embedding keeps them only to mirror the source's call structure).  On a
`NatsError` with `err_code` 10059 (stream not found) the desired config gets
`name := streamName` and is submitted to `streams.add`; any other error is
only logged.  The function returns only its trace. -/
def addOrUpdateStream (streamName : String) (streamConfig : StreamCfg)
    (infoRes : Except JsErr StreamCfg)
    (updateRes : Except JsErr Unit)
    (addRes : Except JsErr Unit) : List BrokerAction :=
  let t0 : List BrokerAction := [.streamInfo streamName]
  match infoRes with
  | .ok info =>
    let r := checkConfigChangeReqd info streamConfig
    if r.1 then t0 ++ [.streamUpdate streamName r.2] else t0
  | .error e =>
    match e with
    | .nats 10059 => t0 ++ [.streamAdd { streamConfig with name := some streamName }]
    | _ => t0

/-- The per-call context `Subscribe` assembles before entering its retry
loop: the topology binding resolved from the topic, the fresh inbox, the
parsed desired stream configuration, and the connection's cluster info. -/
structure SubCtx where
  topic : String
  streamName : String
  consumerName : String
  queueName : String
  inbox : String
  parsed : StreamCfg
  cluster : Option String
deriving DecidableEq, Repr

/-- The broker's responses for the calls one iteration of `Subscribe`'s
retry loop can make, in source order: the three calls of
`addOrUpdateStream`, the three of `updateConsumer`, the stream fetch and
consumer add of the creation block, and the final `js.subscribe`. -/
structure AttemptEnv where
  aosInfoRes : Except JsErr StreamCfg
  aosUpdateRes : Except JsErr Unit
  aosAddRes : Except JsErr Unit
  ucInfoRes : Except JsErr ConsumerCfg
  ucStreamInfoRes : Except JsErr StreamCfg
  ucUpdateRes : Except JsErr Unit
  ccStreamInfoRes : Except JsErr StreamCfg
  ccAddRes : Except JsErr Unit
  subscribeRes : Except JsErr Unit

/-- One iteration of the `while` body of `Subscribe` (`part_000`
lines 73–116), up to and including the `js.subscribe` call: reconcile the
stream, reconcile the consumer, run the creation block if the consumer was
absent, then subscribe.  `addOrUpdateStream`, `updateConsumer` and the
creation block all swallow their own failures, so the only statement that
can throw out of the iteration's `try` is `js.subscribe`; the returned flag
is therefore the success of `subscribeRes`.  The possibly-mutated shared
`consumerConfiguration` is threaded through. -/
def runAttempt (ctx : SubCtx) (e : AttemptEnv)
    (consumerConfiguration : NatsConsumerConfig) :
    List BrokerAction × NatsConsumerConfig × Bool :=
  let t1 := addOrUpdateStream ctx.streamName ctx.parsed e.aosInfoRes e.aosUpdateRes e.aosAddRes
  let uc := updateConsumer ctx.streamName ctx.consumerName consumerConfiguration
    e.ucInfoRes e.ucStreamInfoRes e.ucUpdateRes ctx.cluster
  let cb :=
    if uc.1 then
      createConsumerBlock ctx.topic ctx.streamName ctx.consumerName ctx.queueName ctx.inbox
        consumerConfiguration ctx.cluster e.ccStreamInfoRes e.ccAddRes
    else ([], consumerConfiguration)
  (t1 ++ uc.2 ++ cb.1 ++ [.subscribe ctx.topic], cb.2, e.subscribeRes.toBool)

/-- The retry loop of `Subscribe` (`part_000` lines 70–127).  `attempt` is
the current value of the `attempts` counter and `fuel` is
`maxAttempts - attempts`, the number of loop iterations the guard
`attempts < maxAttempts` still allows; iteration `i` receives the broker
responses `env i`.  A successful `js.subscribe` breaks out of the loop; a
failure increments the counter and, unless it was the final attempt, sleeps
the fixed 5000 ms backoff before the next iteration. -/
def subscribeLoop (ctx : SubCtx) (env : Nat → AttemptEnv) :
    NatsConsumerConfig → Nat → Nat → List BrokerAction
  | _, _, 0 => []
  | cc, attempt, fuel + 1 =>
    let r := runAttempt ctx (env attempt) cc
    if r.2.2 then r.1
    else if fuel = 0 then r.1
    else r.1 ++ [.sleep 5000] ++ subscribeLoop ctx env r.2.1 (attempt + 1) fuel

/-- `Subscribe` (`part_000` lines 40–129).  The three utils-level maps are
`NatsTopicMapping`, `NatsConsumerWiseConfigMapping` and
`NatsStreamWiseConfigMapping` (a JS `Map.get` yields `undefined` for an
absent key, hence `Option` results); `getSubjects` is `GetStreamSubjects`.
When the topic is absent, line 42 (`natsTopicConfig.streamName`) throws a
`TypeError` before anything else runs; likewise an absent consumer config
throws at line 51 (`consumerConfiguration.ack_wait`, inside the consumer
options builder) and an absent stream config at line 231
(`streamConfig.max_age`, inside `getStreamConfig`) — all three before the
retry loop.  Otherwise the retry loop runs and `Subscribe` resolves normally
with the trace it produced. -/
def Subscribe (topicMapping : String → Option NatsTopic)
    (consumerMapping : String → Option NatsConsumerConfig)
    (streamMapping : String → Option NatsStreamConfig)
    (getSubjects : String → List JStr)
    (cluster : Option String) (inbox : String)
    (env : Nat → AttemptEnv) (numberOfRetries : Nat)
    (topic : String) : Except JsErr (List BrokerAction) :=
  match topicMapping topic with
  | none => .error .typeError
  | some natsTopicConfig =>
    match consumerMapping natsTopicConfig.consumerName with
    | none => .error .typeError
    | some consumerConfiguration =>
      match streamMapping natsTopicConfig.streamName with
      | none => .error .typeError
      | some streamConfiguration =>
        let ctx : SubCtx :=
          { topic := topic
            streamName := natsTopicConfig.streamName
            consumerName := natsTopicConfig.consumerName
            queueName := natsTopicConfig.queueName
            inbox := inbox
            parsed := getStreamConfig streamConfiguration natsTopicConfig.streamName getSubjects
            cluster := cluster }
        .ok (subscribeLoop ctx env consumerConfiguration 0 numberOfRetries)

/-- One observable step of the per-message delivery callback: the handler
invocation (with the string it received), the acknowledgment `msg.ack()`,
or a logged error. -/
inductive DeliveryAction where
  | handled (s : String)
  | ack
  | errorLog
deriving DecidableEq, Repr

/-- One UTF-8 decoding step of the WHATWG `TextDecoder` that
`StringCodec().decode` wraps (non-fatal mode): consume one scalar value's
bytes from the front of the list, or produce U+FFFD for an invalid
sequence.  Returns the decoded character and the remaining bytes. -/
def utf8Step (b : Nat) (rest : List Nat) : Char × List Nat :=
  let repl : Char := Char.ofNat 0xFFFD
  let cont : Nat → Bool := fun x => 0x80 ≤ x ∧ x ≤ 0xBF
  if b < 0x80 then
    (Char.ofNat b, rest)
  else if 0xC2 ≤ b ∧ b ≤ 0xDF then
    match rest with
    | b2 :: r2 =>
      if cont b2 then (Char.ofNat ((b - 0xC0) * 0x40 + (b2 - 0x80)), r2)
      else (repl, rest)
    | [] => (repl, [])
  else if 0xE0 ≤ b ∧ b ≤ 0xEF then
    let lo2 := if b = 0xE0 then 0xA0 else 0x80
    let hi2 := if b = 0xED then 0x9F else 0xBF
    match rest with
    | b2 :: r2 =>
      if lo2 ≤ b2 ∧ b2 ≤ hi2 then
        match r2 with
        | b3 :: r3 =>
          if cont b3 then
            (Char.ofNat ((b - 0xE0) * 0x1000 + (b2 - 0x80) * 0x40 + (b3 - 0x80)), r3)
          else (repl, r2)
        | [] => (repl, [])
      else (repl, rest)
    | [] => (repl, [])
  else if 0xF0 ≤ b ∧ b ≤ 0xF4 then
    let lo2 := if b = 0xF0 then 0x90 else 0x80
    let hi2 := if b = 0xF4 then 0x8F else 0xBF
    match rest with
    | b2 :: r2 =>
      if lo2 ≤ b2 ∧ b2 ≤ hi2 then
        match r2 with
        | b3 :: r3 =>
          if cont b3 then
            match r3 with
            | b4 :: r4 =>
              if cont b4 then
                (Char.ofNat ((b - 0xF0) * 0x40000 + (b2 - 0x80) * 0x1000 +
                  (b3 - 0x80) * 0x40 + (b4 - 0x80)), r4)
              else (repl, r3)
            | [] => (repl, [])
          else (repl, r2)
        | [] => (repl, [])
      else (repl, rest)
    | [] => (repl, [])
  else (repl, rest)

/-- UTF-8 decoding of a byte list, recursion bounded by the input length
(each step of `utf8Step` consumes at least the leading byte). -/
def utf8DecodeAux : Nat → List Nat → List Char
  | 0, _ => []
  | _, [] => []
  | fuel + 1, b :: rest =>
    let s := utf8Step b rest
    s.1 :: utf8DecodeAux fuel s.2

/-- `StringCodec().decode`: UTF-8 decode the payload bytes to a string
(the `TextDecoder` default is non-fatal, so decoding never throws). -/
def scDecode (bytes : List Nat) : String :=
  String.mk (utf8DecodeAux bytes.length bytes)

/-- One hexadecimal digit, as `JSON.stringify` prints it in a `\u00XX`
escape (lower case). -/
def hexDigit (n : Nat) : String :=
  String.singleton (if n < 10 then Char.ofNat (48 + n) else Char.ofNat (87 + n))

/-- The escape `JSON.stringify` applies to one character of a string value:
`"` and `\` get a backslash, the five named control characters get their
short escapes, the remaining control characters a `\u00XX` escape, and
everything else is emitted verbatim. -/
def jsonEscapeChar (c : Char) : String :=
  if c = Char.ofNat 34 then "\\\""
  else if c = Char.ofNat 92 then "\\\\"
  else if c = Char.ofNat 8 then "\\b"
  else if c = Char.ofNat 9 then "\\t"
  else if c = Char.ofNat 10 then "\\n"
  else if c = Char.ofNat 12 then "\\f"
  else if c = Char.ofNat 13 then "\\r"
  else if c.toNat < 32 then "\\u00" ++ hexDigit (c.toNat / 16) ++ hexDigit (c.toNat % 16)
  else String.singleton c

/-- `JSON.stringify` applied to a string value: the escaped text surrounded
by double quotes. -/
def jsonStringify (s : String) : String :=
  "\"" ++ String.join (s.toList.map jsonEscapeChar) ++ "\""

/-- `getJsonString` (`part_000` lines 222–226):
`JSON.stringify(StringCodec().decode(bytes))`. -/
def getJsonString (bytes : List Nat) : String :=
  jsonStringify (scDecode bytes)

/-- The delivery callback of `part_000`'s `Subscribe` (lines 57–65): inside
a `try`, decode the payload and invoke the caller's handler; a throw from
either is caught and logged.  `msg.ack()` sits after the `try`/`catch` and
runs unconditionally.  The handler is modelled as possibly throwing
(`Except JsErr Unit`); decoding itself is total (see `scDecode`). -/
def deliveryCallback (callback : String → Except JsErr Unit)
    (data : List Nat) : List DeliveryAction :=
  (match callback (getJsonString data) with
   | .ok _ => [.handled (getJsonString data)]
   | .error _ => [.handled (getJsonString data), .errorLog]) ++ [.ack]

/-- The delivery callback of the older variant
(`src/src/pubSub/pubSub.ts` lines 71–80): here `msg.ack()` is the last
statement *inside* the `try`, so a throw from decoding or from the handler
skips the acknowledgment and only logs. -/
def deliveryCallbackLegacy (callback : String → Except JsErr Unit)
    (data : List Nat) : List DeliveryAction :=
  match callback (getJsonString data) with
  | .ok _ => [.handled (getJsonString data), .ack]
  | .error _ => [.handled (getJsonString data), .errorLog]

/-- The list of strings a delivery trace passed to the caller's handler. -/
def handledArgs (t : List DeliveryAction) : List String :=
  t.filterMap fun a =>
    match a with
    | .handled s => some s
    | _ => none

/-- Is this action the `js.subscribe` call? -/
def isSubscribeA (a : BrokerAction) : Bool :=
  match a with
  | .subscribe _ => true
  | _ => false

/-- Is this action a backoff sleep? -/
def isSleepA (a : BrokerAction) : Bool :=
  match a with
  | .sleep _ => true
  | _ => false

/-- Is this action a `streams.update` call? -/
def isStreamUpdateA (a : BrokerAction) : Bool :=
  match a with
  | .streamUpdate _ _ => true
  | _ => false

/-- Does the trace contain a logged warning? -/
def hasWarnA (t : List BrokerAction) : Bool :=
  t.any fun a =>
    match a with
    | .warn _ => true
    | _ => false

/-- The configurations carried by the trace's `consumers.update` calls. -/
def consumerUpdatesOf (t : List BrokerAction) : List ConsumerCfg :=
  t.filterMap fun a =>
    match a with
    | .consumerUpdate _ _ cfg => some cfg
    | _ => none

/-- The configurations carried by the trace's `consumers.add` calls. -/
def consumerAdds (t : List BrokerAction) : List ConsumerAddCfg :=
  t.filterMap fun a =>
    match a with
    | .consumerAdd _ cfg => some cfg
    | _ => none

/-- An action that is neither the subscribe call nor a sleep (everything the
three reconciliation phases can emit). -/
def cleanA (a : BrokerAction) : Bool :=
  !(isSubscribeA a) && !(isSleepA a)

/-- A broker behaviour in which every call of one retry-loop iteration
rejects (here: with a non-Nats error); in particular the `js.subscribe`
call of every attempt fails. -/
def failEnv : AttemptEnv :=
  { aosInfoRes := .error .other
    aosUpdateRes := .error .other
    aosAddRes := .error .other
    ucInfoRes := .error .other
    ucStreamInfoRes := .error .other
    ucUpdateRes := .error .other
    ccStreamInfoRes := .error .other
    ccAddRes := .error .other
    subscribeRes := .error .other }

/-- Applying the config differ a second time with the same desired input
detects no change and leaves the config as the first application left it. -/
theorem checkConfigChangeReqd_idem (a d : StreamCfg) :
    checkConfigChangeReqd (checkConfigChangeReqd a d).2 d =
      (false, (checkConfigChangeReqd a d).2) := by
  simp only [checkConfigChangeReqd]
  split_ifs with h1 h2 h3 h4 h5 h6 h7 h8 <;> simp_all

/-- Claim C6: on actual `(max_age 100, subjects ["a"])` and desired
`(max_age 200, subjects ["b"])`, `checkConfigChangeReqd` rewrites the
actual config to `(max_age 200, subjects ["a","b"])` — appending the
subject, not replacing the set — and returns `true`; on the same actual
with desired `(max_age 0, subjects ["a"])` it leaves `max_age` at 100 and
the subjects unchanged and returns `false`. -/
theorem config_diff_concrete :
    checkConfigChangeReqd ⟨none, 100, [some "a"], 0⟩ ⟨none, 200, [some "b"], 0⟩ =
      (true, ⟨none, 200, [some "a", some "b"], 0⟩) ∧
    checkConfigChangeReqd ⟨none, 100, [some "a"], 0⟩ ⟨none, 0, [some "a"], 0⟩ =
      (false, ⟨none, 100, [some "a"], 0⟩) := by
  decide

/-- Claim C7: for every actual stream config and every desired config with
at least one subject, a second `checkConfigChangeReqd` on the mutated
actual config with the same desired config returns `false`, and a second
reconciliation of the existing stream (the broker now reporting the
patched config) issues no `streams.update` call. -/
theorem reconcile_idempotent (a d : StreamCfg) (streamName : String)
    (updateRes addRes : Except JsErr Unit) (hsub : d.subjects ≠ []) :
    (checkConfigChangeReqd (checkConfigChangeReqd a d).2 d).1 = false ∧
    (addOrUpdateStream streamName d (.ok (checkConfigChangeReqd a d).2)
        updateRes addRes).countP (fun x => isStreamUpdateA x) = 0 := by
  refine ⟨by rw [checkConfigChangeReqd_idem], ?_⟩
  show (let r := checkConfigChangeReqd (checkConfigChangeReqd a d).2 d
        if r.1 then _ ++ [_] else [BrokerAction.streamInfo streamName]).countP
          (fun x => isStreamUpdateA x) = 0
  rw [checkConfigChangeReqd_idem]
  simp [isStreamUpdateA]

/-- Witness for `reconcile_idempotent` at a concrete input. -/
theorem reconcile_idempotent_witness :
    ([some "a"] : List JStr) ≠ [] ∧
    ((checkConfigChangeReqd
        (checkConfigChangeReqd ⟨none, 100, [some "x"], 0⟩ ⟨none, 200, [some "a"], 0⟩).2
        ⟨none, 200, [some "a"], 0⟩).1 = false ∧
      (addOrUpdateStream "st" ⟨none, 200, [some "a"], 0⟩
          (.ok (checkConfigChangeReqd ⟨none, 100, [some "x"], 0⟩ ⟨none, 200, [some "a"], 0⟩).2)
          (.ok ()) (.ok ())).countP (fun x => isStreamUpdateA x) = 0) :=
  ⟨by decide, reconcile_idempotent ⟨none, 100, [some "x"], 0⟩ ⟨none, 200, [some "a"], 0⟩
      "st" (.ok ()) (.ok ()) (by decide)⟩

/-- Claim C8: when the stream-info fetch rejects with api error code 10059
(stream not found), `addOrUpdateStream` issues no `streams.update` call and
creates the stream with name `streamName`, the full desired subject set and
the desired retention (`max_age`). -/
theorem stream_created_when_missing (streamName : String) (scfg : NatsStreamConfig)
    (getSubjects : String → List JStr) (updateRes addRes : Except JsErr Unit) :
    addOrUpdateStream streamName (getStreamConfig scfg streamName getSubjects)
        (.error (.nats 10059)) updateRes addRes =
      [.streamInfo streamName,
       .streamAdd { name := some streamName, max_age := scfg.max_age,
                    subjects := getSubjects streamName, num_replicas := 0 }] := by
  rfl

/-- Claim C10: for a topic absent from the topic mapping, `Subscribe`
rejects with the `TypeError` raised by reading `streamName` on `undefined`,
before any broker call: the result is an error, not a trace. -/
theorem unknown_topic_throws (topicMapping : String → Option NatsTopic)
    (consumerMapping : String → Option NatsConsumerConfig)
    (streamMapping : String → Option NatsStreamConfig)
    (getSubjects : String → List JStr) (cluster : Option String) (inbox : String)
    (env : Nat → AttemptEnv) (numberOfRetries : Nat) (topic : String)
    (h : topicMapping topic = none) :
    Subscribe topicMapping consumerMapping streamMapping getSubjects cluster inbox
      env numberOfRetries topic = .error .typeError := by
  unfold Subscribe
  rw [h]

/-- Witness for `unknown_topic_throws` at a concrete input. -/
theorem unknown_topic_throws_witness :
    ((fun _ : String => (none : Option NatsTopic)) "tp" = none) ∧
    Subscribe (fun _ => none) (fun _ => some ⟨0, 0⟩) (fun _ => some ⟨100⟩)
      (fun _ => [some "s"]) none "in" (fun _ => failEnv) 3 "tp" = .error .typeError :=
  ⟨rfl, unknown_topic_throws (fun _ => none) (fun _ => some ⟨0, 0⟩) (fun _ => some ⟨100⟩)
      (fun _ => [some "s"]) none "in" (fun _ => failEnv) 3 "tp" rfl⟩

/-- Claim C2 (counterexample to the claim as stated): in the delivery
callback of `src/src/pubSub/pubSub.ts`, a message whose handler throws is
never acknowledged — zero `ack` actions, not exactly one. -/
theorem legacy_callback_skips_ack :
    (deliveryCallbackLegacy (fun _ => .error .other) [104, 105]).count .ack = 0 := by
  decide

/-- Claim C2 (amended): the `part_000` delivery callback sends exactly one
acknowledgment whatever the handler does (an error is only logged), while
the `pubSub.ts` callback acknowledges exactly when decoding and the handler
succeed, and skips the acknowledgment otherwise. -/
theorem delivery_ack_discipline (callback : String → Except JsErr Unit)
    (data : List Nat) :
    (deliveryCallback callback data).count .ack = 1 ∧
    (deliveryCallbackLegacy callback data).count .ack =
      (if (callback (getJsonString data)).toBool then 1 else 0) := by
  unfold deliveryCallback deliveryCallbackLegacy
  rcases callback (getJsonString data) with e | u <;>
    simp [Except.toBool, List.count_cons, List.count_singleton]

/-- Claim C9 (counterexample to the claim as stated): for the payload bytes
of `"hi"`, the handler receives the JSON string literal `"hi"` (with quote
characters), which is not the decoded payload text `hi`. -/
theorem handler_arg_not_decoded_text :
    handledArgs (deliveryCallback (fun _ => .ok ()) [104, 105]) = ["\"hi\""] ∧
    scDecode [104, 105] = "hi" ∧
    ("\"hi\"" : String) ≠ "hi" := by
  decide

/-- Claim C9 (amended): for every delivered message the handler is invoked
exactly once, with `JSON.stringify` of the decoded payload text (the
decoded text wrapped and escaped as a JSON string literal), not with the
decoded text itself. -/
theorem handler_receives_json_stringified (callback : String → Except JsErr Unit)
    (data : List Nat) :
    handledArgs (deliveryCallback callback data) = [jsonStringify (scDecode data)] := by
  unfold deliveryCallback
  rcases callback (getJsonString data) with e | u <;>
    simp [handledArgs, getJsonString]

/-- Claim C3 (evaluation at the failing input): on the creation path with
desired `num_replicas = 0`, even when the parent stream's fetched info
reports 3 replicas, the code issues `consumers.add` with literal
`num_replicas = 0` and never consults the stream: the inheritance branch is
guarded by `num_replicas > 1`, contradicting the source's own comments
("if consumer replica is zero it should inherit stream replicas"). -/
theorem creation_passes_literal_zero_replicas :
    (createConsumerBlock "tp" "st" "cn" "qg" "ib" ⟨120, 0⟩ none
        (.ok ⟨none, 0, [], 3⟩) (.ok ())).1 =
      [.consumerAdd "st"
        { name := "cn", deliver_subject := "ib", durable_name := "cn",
          ack_wait := 120, num_replicas := 0, filter_subject := "tp",
          deliver_group := "qg", ack_policy := .Explicit, deliver_policy := .Last }] := by
  decide

/-- Every trace the stream reconciler emits is free of subscribe calls and
sleeps. -/
theorem addOrUpdateStream_clean (streamName : String) (cfg : StreamCfg)
    (iR : Except JsErr StreamCfg) (uR aR : Except JsErr Unit) :
    (addOrUpdateStream streamName cfg iR uR aR).all cleanA = true := by
  unfold addOrUpdateStream
  rcases iR with e | i
  · rcases e with c | _ | _ <;> simp [cleanA, isSubscribeA, isSleepA] <;>
      split <;> simp [cleanA, isSubscribeA, isSleepA]
  · simp only
    split <;> simp [cleanA, isSubscribeA, isSleepA]

/-- Every trace the consumer reconciler emits is free of subscribe calls
and sleeps. -/
theorem updateConsumer_clean (sN cN : String) (cc : NatsConsumerConfig)
    (iR : Except JsErr ConsumerCfg) (sR : Except JsErr StreamCfg)
    (uR : Except JsErr Unit) (cl : Option String) :
    (updateConsumer sN cN cc iR sR uR cl).2.all cleanA = true := by
  unfold updateConsumer
  rcases iR with e | i
  · simp [cleanA, isSubscribeA, isSleepA]
  · rcases sR with e2 | s2
    · simp [cleanA, isSubscribeA, isSleepA]
    · simp only
      split_ifs <;> rcases uR with e3 | u3 <;> simp [cleanA, isSubscribeA, isSleepA]

/-- Every trace the consumer-creation block emits is free of subscribe
calls and sleeps. -/
theorem createConsumerBlock_clean (tp sN cN qN ib : String) (cc : NatsConsumerConfig)
    (cl : Option String) (sR : Except JsErr StreamCfg) (aR : Except JsErr Unit) :
    (createConsumerBlock tp sN cN qN ib cc cl sR aR).1.all cleanA = true := by
  unfold createConsumerBlock
  split_ifs
  · rcases sR with e | s <;> simp [cleanA, isSubscribeA, isSleepA]
  · simp [cleanA, isSubscribeA, isSleepA]

/-- A trace of clean actions contains no subscribe call. -/
theorem clean_countP_sub {t : List BrokerAction} (h : t.all cleanA = true) :
    t.countP (fun a => isSubscribeA a) = 0 := by
  refine List.countP_eq_zero.mpr ?_
  intro a ha
  have := List.all_eq_true.mp h a ha
  simp [cleanA] at this
  simp [this.1]

/-- A trace of clean actions contains no sleep. -/
theorem clean_countP_sleep {t : List BrokerAction} (h : t.all cleanA = true) :
    t.countP (fun a => isSleepA a) = 0 := by
  refine List.countP_eq_zero.mpr ?_
  intro a ha
  have := List.all_eq_true.mp h a ha
  simp [cleanA] at this
  simp [this.2]

/-- One iteration of the retry loop always issues exactly one
`js.subscribe` call (the reconciliation phases swallow their own errors and
never abort the iteration early) and never sleeps. -/
theorem runAttempt_trace_counts (ctx : SubCtx) (e : AttemptEnv) (cc : NatsConsumerConfig) :
    (runAttempt ctx e cc).1.countP (fun a => isSubscribeA a) = 1 ∧
    (runAttempt ctx e cc).1.countP (fun a => isSleepA a) = 0 := by
  unfold runAttempt
  simp only [List.countP_append]
  constructor
  · rw [clean_countP_sub (addOrUpdateStream_clean _ _ _ _ _),
      clean_countP_sub (updateConsumer_clean _ _ _ _ _ _ _)]
    have h3 : (if (updateConsumer ctx.streamName ctx.consumerName cc e.ucInfoRes
        e.ucStreamInfoRes e.ucUpdateRes ctx.cluster).1 then
        createConsumerBlock ctx.topic ctx.streamName ctx.consumerName ctx.queueName ctx.inbox
          cc ctx.cluster e.ccStreamInfoRes e.ccAddRes
      else ([], cc)).1.countP (fun a => isSubscribeA a) = 0 := by
      split
      · exact clean_countP_sub (createConsumerBlock_clean _ _ _ _ _ _ _ _ _)
      · simp
    rw [h3]
    simp [isSubscribeA]
  · rw [clean_countP_sleep (addOrUpdateStream_clean _ _ _ _ _),
      clean_countP_sleep (updateConsumer_clean _ _ _ _ _ _ _)]
    have h3 : (if (updateConsumer ctx.streamName ctx.consumerName cc e.ucInfoRes
        e.ucStreamInfoRes e.ucUpdateRes ctx.cluster).1 then
        createConsumerBlock ctx.topic ctx.streamName ctx.consumerName ctx.queueName ctx.inbox
          cc ctx.cluster e.ccStreamInfoRes e.ccAddRes
      else ([], cc)).1.countP (fun a => isSleepA a) = 0 := by
      split
      · exact clean_countP_sleep (createConsumerBlock_clean _ _ _ _ _ _ _ _ _)
      · simp
    rw [h3]
    simp [isSleepA]

/-- With every attempt's `js.subscribe` call failing, a loop allowed `fuel`
more iterations performs exactly `fuel` subscribe attempts, sleeps exactly
`fuel - 1` times (never after the final attempt), and every sleep is the
fixed 5000 ms backoff. -/
theorem subscribeLoop_all_fail (ctx : SubCtx) (env : Nat → AttemptEnv)
    (hfail : ∀ i, (env i).subscribeRes.toBool = false) :
    ∀ (fuel : Nat) (cc : NatsConsumerConfig) (attempt : Nat),
      (subscribeLoop ctx env cc attempt fuel).countP (fun a => isSubscribeA a) = fuel ∧
      (subscribeLoop ctx env cc attempt fuel).countP (fun a => isSleepA a) = fuel - 1 ∧
      ∀ a ∈ subscribeLoop ctx env cc attempt fuel, isSleepA a = true → a = .sleep 5000 := by
  intro fuel
  induction fuel with
  | zero => intro cc attempt; simp [subscribeLoop]
  | succ n ih =>
    intro cc attempt
    have hr := runAttempt_trace_counts ctx (env attempt) cc
    have hnosleep : ∀ a ∈ (runAttempt ctx (env attempt) cc).1, ¬(isSleepA a = true) :=
      List.countP_eq_zero.mp hr.2
    have hok : (runAttempt ctx (env attempt) cc).2.2 = false := hfail attempt
    simp only [subscribeLoop]
    rw [hok]
    simp only [if_false, Bool.false_eq_true]
    by_cases hn : n = 0
    · subst hn
      simp only [if_pos rfl]
      exact ⟨hr.1, hr.2, fun a ha hs => absurd hs (hnosleep a ha)⟩
    · rw [if_neg hn]
      obtain ⟨ih1, ih2, ih3⟩ := ih (runAttempt ctx (env attempt) cc).2.1 (attempt + 1)
      refine ⟨?_, ?_, ?_⟩
      · simp only [List.countP_append, hr.1, ih1]
        simp [isSubscribeA]
        omega
      · simp only [List.countP_append, hr.2, ih2]
        simp [List.countP_cons, isSleepA]
        omega
      · intro a ha hs
        rcases List.mem_append.mp ha with h1 | h2
        · rcases List.mem_append.mp h1 with h1a | h1b
          · exact absurd hs (hnosleep a h1a)
          · rw [List.mem_singleton.mp h1b]
        · exact ih3 a h2 hs

/-- Claim C1: when the topic, consumer and stream mappings resolve and the
broker `js.subscribe` call of every attempt fails, `Subscribe` resolves
normally (no error reaches the caller) and its trace holds exactly
`numberOfRetries` subscribe attempts and `numberOfRetries - 1` backoff
sleeps — one between consecutive attempts, none after the final one — each
of the fixed 5000 ms. -/
theorem subscribe_retry_bound
    (topicMapping : String → Option NatsTopic)
    (consumerMapping : String → Option NatsConsumerConfig)
    (streamMapping : String → Option NatsStreamConfig)
    (getSubjects : String → List JStr) (cluster : Option String) (inbox : String)
    (env : Nat → AttemptEnv) (numberOfRetries : Nat) (topic : String)
    (tb : NatsTopic) (cc : NatsConsumerConfig) (scfg : NatsStreamConfig)
    (htopic : topicMapping topic = some tb)
    (hcons : consumerMapping tb.consumerName = some cc)
    (hstream : streamMapping tb.streamName = some scfg)
    (hfail : ∀ i, (env i).subscribeRes.toBool = false) :
    ∃ tr, Subscribe topicMapping consumerMapping streamMapping getSubjects cluster inbox
        env numberOfRetries topic = .ok tr ∧
      tr.countP (fun a => isSubscribeA a) = numberOfRetries ∧
      tr.countP (fun a => isSleepA a) = numberOfRetries - 1 ∧
      ∀ a ∈ tr, isSleepA a = true → a = .sleep 5000 := by
  have hmain := subscribeLoop_all_fail
    { topic := topic
      streamName := tb.streamName
      consumerName := tb.consumerName
      queueName := tb.queueName
      inbox := inbox
      parsed := getStreamConfig scfg tb.streamName getSubjects
      cluster := cluster } env hfail numberOfRetries cc 0
  refine ⟨_, ?_, hmain.1, hmain.2.1, hmain.2.2⟩
  simp only [Subscribe, htopic, hcons, hstream]

/-- Witness for `subscribe_retry_bound` at a concrete input: three allowed
attempts, every broker call failing. -/
theorem subscribe_retry_bound_witness :
    ((fun _ : String => some (⟨"st", "cn", "qg"⟩ : NatsTopic)) "tp" =
        some (⟨"st", "cn", "qg"⟩ : NatsTopic)) ∧
    (∀ i : Nat, ((fun _ : Nat => failEnv) i).subscribeRes.toBool = false) ∧
    ∃ tr, Subscribe (fun _ => some ⟨"st", "cn", "qg"⟩) (fun _ => some ⟨0, 0⟩)
        (fun _ => some ⟨100⟩) (fun _ => [some "sj"]) none "ib"
        (fun _ => failEnv) 3 "tp" = .ok tr ∧
      tr.countP (fun a => isSubscribeA a) = 3 ∧
      tr.countP (fun a => isSleepA a) = 3 - 1 ∧
      ∀ a ∈ tr, isSleepA a = true → a = .sleep 5000 :=
  ⟨rfl, fun _ => rfl,
    subscribe_retry_bound (fun _ => some ⟨"st", "cn", "qg"⟩) (fun _ => some ⟨0, 0⟩)
      (fun _ => some ⟨100⟩) (fun _ => [some "sj"]) none "ib" (fun _ => failEnv) 3 "tp"
      ⟨"st", "cn", "qg"⟩ ⟨0, 0⟩ ⟨100⟩ rfl rfl rfl (fun _ => rfl)⟩

/-- Claim C4 (counterexample to the claim as stated): on the update path
with desired `num_replicas = 2` and a connection reporting no cluster info,
no warning is logged when the existing consumer already has 2 replicas —
the code warns only when a replica change would be needed, while the claim
demands a warning whenever `num_replicas > 1` meets a non-clustered
connection. -/
theorem update_path_warn_missing :
    ((⟨0, 2⟩ : NatsConsumerConfig).num_replicas > 1) ∧
    hasWarnA (updateConsumer "st" "cn" ⟨0, 2⟩ (.ok ⟨5, 2⟩) (.ok ⟨none, 0, [], 2⟩)
        (.ok ()) none).2 = false := by
  decide

/-- Claim C4 (amended): when the desired `num_replicas` exceeds 1 and the
connection reports no cluster info, the update path never changes the
consumer's replica count (any pushed update keeps the existing count) and
logs the warning exactly when the stream-info fetch succeeds and the
existing replica count differs from the desired one; the create path always
logs the warning — whatever its stream fetch returns — and, when that fetch
succeeds, creates the consumer with the stream's current replica count
instead of the desired value. -/
theorem nonclustered_replica_guard
    (sN cN topic qN inbox : String) (cc : NatsConsumerConfig) (a : ConsumerCfg)
    (sR cR : Except JsErr StreamCfg) (uR aR : Except JsErr Unit)
    (hrep : cc.num_replicas > 1) :
    ((consumerUpdatesOf (updateConsumer sN cN cc (.ok a) sR uR none).2).all
        (fun cfg => cfg.num_replicas == a.num_replicas) = true) ∧
    (hasWarnA (updateConsumer sN cN cc (.ok a) sR uR none).2 =
        (sR.toBool && !(a.num_replicas == cc.num_replicas))) ∧
    (hasWarnA (createConsumerBlock topic sN cN qN inbox cc none cR aR).1 = true) ∧
    (∀ si : StreamCfg, cR = .ok si →
      (consumerAdds (createConsumerBlock topic sN cN qN inbox cc none cR aR).1).all
        (fun cfg => cfg.num_replicas == si.num_replicas) = true) := by
  refine ⟨?_, ?_, ?_, ?_⟩
  · unfold updateConsumer
    rcases sR with e | s2
    · simp [consumerUpdatesOf]
    · simp only
      split_ifs <;>
        rcases uR with e3 | u3 <;>
        simp_all [consumerUpdatesOf, Except.toBool]
  · unfold updateConsumer
    rcases sR with e | s2
    · simp [hasWarnA, Except.toBool]
    · simp only
      split_ifs <;>
        rcases uR with e3 | u3 <;>
        simp_all [hasWarnA, Except.toBool] <;> omega
  · unfold createConsumerBlock
    rw [if_pos ⟨hrep, rfl⟩]
    rcases cR with e | s <;> simp [hasWarnA]
  · intro si hsi
    subst hsi
    unfold createConsumerBlock
    rw [if_pos ⟨hrep, rfl⟩]
    simp [consumerAdds, mkAddCfg]

/-- Witness for `nonclustered_replica_guard` at a concrete input: desired
2 replicas, an existing consumer with 5, a stream with 1 replica, no
cluster info. -/
theorem nonclustered_replica_guard_witness :
    ((⟨100, 2⟩ : NatsConsumerConfig).num_replicas > 1) ∧
    ((consumerUpdatesOf (updateConsumer "st" "cn" ⟨100, 2⟩ (.ok ⟨50, 5⟩)
        (.ok ⟨none, 0, [], 1⟩) (.ok ()) none).2).all
        (fun cfg => cfg.num_replicas == (5 : Int)) = true) ∧
    (hasWarnA (updateConsumer "st" "cn" ⟨100, 2⟩ (.ok ⟨50, 5⟩)
        (.ok ⟨none, 0, [], 1⟩) (.ok ()) none).2 = true) ∧
    (hasWarnA (createConsumerBlock "tp" "st" "cn" "qg" "ib" ⟨100, 2⟩ none
        (.ok ⟨none, 0, [], 1⟩) (.ok ())).1 = true) ∧
    (∀ si : StreamCfg, (.ok ⟨none, 0, [], 1⟩ : Except JsErr StreamCfg) = .ok si →
      (consumerAdds (createConsumerBlock "tp" "st" "cn" "qg" "ib" ⟨100, 2⟩ none
          (.ok ⟨none, 0, [], 1⟩) (.ok ())).1).all
        (fun cfg => cfg.num_replicas == si.num_replicas) = true) := by
  have h := nonclustered_replica_guard "st" "cn" "tp" "qg" "ib" ⟨100, 2⟩ ⟨50, 5⟩
    (.ok ⟨none, 0, [], 1⟩) (.ok ⟨none, 0, [], 1⟩) (.ok ()) (.ok ()) (by decide)
  exact ⟨by decide, h.1, by rw [h.2.1]; rfl, h.2.2.1, h.2.2.2⟩

/-- Claim C5 (counterexample to the claim as stated): the broker reports
the consumer absent (api error code 10014) and `updateConsumer` returns
`true`, but with desired `num_replicas = 2` on a connection without
cluster info and a rejecting stream-info fetch, the creation block's
swallowed error skips `consumers.add` entirely: the next broker action is
the `streams.info` fetch and no consumer creation call is ever issued. -/
theorem creation_block_skipped_on_fetch_failure :
    (updateConsumer "st" "cn" ⟨120, 2⟩ (.error (.nats 10014)) (.ok ⟨none, 0, [], 1⟩)
        (.ok ()) none).1 = true ∧
    (createConsumerBlock "tp" "st" "cn" "qg" "ib" ⟨120, 2⟩ none (.error .other)
        (.ok ())).1 = [.warn warnMsg, .streamInfo "st"] := by
  decide

/-- Claim C5 (amended): when the consumer-info fetch rejects with api error
code 10014 (consumer not found), `updateConsumer` returns `true` and issues
no `consumers.update` call, and every `consumers.add` the subsequent
creation block issues carries ack policy `Explicit`, deliver policy `Last`,
durable name = consumer name, filter subject = the topic, and deliver group
= the binding's queue group.  Unless the desired `num_replicas` exceeds 1
on a connection without cluster info, the creation block's trace is exactly
that single creation call; otherwise a warning and a `streams.info` fetch
precede it, the creation call follows only when the fetch succeeds (with
the stream's replica count substituted), and a failing fetch skips the
creation entirely. -/
theorem creation_on_absence
    (sN cN topic qN inbox : String) (cc : NatsConsumerConfig)
    (iR : Except JsErr ConsumerCfg) (sR cR : Except JsErr StreamCfg)
    (uR aR : Except JsErr Unit) (cluster : Option String)
    (hinfo : iR = .error (.nats 10014)) :
    (updateConsumer sN cN cc iR sR uR cluster).1 = true ∧
    consumerUpdatesOf (updateConsumer sN cN cc iR sR uR cluster).2 = [] ∧
    ((consumerAdds (createConsumerBlock topic sN cN qN inbox cc cluster cR aR).1).all
      (fun cfg => cfg.ack_policy == AckPolicy.Explicit &&
        cfg.deliver_policy == DeliverPolicy.Last &&
        cfg.durable_name == cN && cfg.filter_subject == topic &&
        cfg.deliver_group == qN) = true) ∧
    (¬(cc.num_replicas > 1 ∧ cluster = none) →
      (createConsumerBlock topic sN cN qN inbox cc cluster cR aR).1 =
        [.consumerAdd sN (mkAddCfg topic sN cN qN inbox cc)]) ∧
    (cc.num_replicas > 1 ∧ cluster = none →
      (∀ si : StreamCfg, cR = .ok si →
        (createConsumerBlock topic sN cN qN inbox cc cluster cR aR).1 =
          [.warn warnMsg, .streamInfo sN,
           .consumerAdd sN (mkAddCfg topic sN cN qN inbox
             { cc with num_replicas := si.num_replicas })]) ∧
      (∀ e : JsErr, cR = .error e →
        (createConsumerBlock topic sN cN qN inbox cc cluster cR aR).1 =
          [.warn warnMsg, .streamInfo sN])) := by
  subst hinfo
  refine ⟨rfl, rfl, ?_, ?_, ?_⟩
  · unfold createConsumerBlock
    split_ifs
    · rcases cR with e | s <;> simp [consumerAdds, mkAddCfg]
    · simp [consumerAdds, mkAddCfg]
  · intro h
    unfold createConsumerBlock
    rw [if_neg h]
  · intro h
    refine ⟨?_, ?_⟩
    · intro si hsi
      subst hsi
      unfold createConsumerBlock
      rw [if_pos h]
    · intro e he
      subst he
      unfold createConsumerBlock
      rw [if_pos h]

/-- Witness for `creation_on_absence` at a concrete input: desired
2 replicas, no cluster info, creation-path stream fetch succeeding with a
1-replica stream. -/
theorem creation_on_absence_witness :
    ((.error (.nats 10014) : Except JsErr ConsumerCfg) = .error (.nats 10014)) ∧
    ((updateConsumer "st" "cn" ⟨120, 2⟩ (.error (.nats 10014)) (.error .other)
        (.ok ()) none).1 = true ∧
     consumerUpdatesOf (updateConsumer "st" "cn" ⟨120, 2⟩ (.error (.nats 10014))
        (.error .other) (.ok ()) none).2 = [] ∧
     ((consumerAdds (createConsumerBlock "tp" "st" "cn" "qg" "ib" ⟨120, 2⟩ none
        (.ok ⟨none, 0, [], 1⟩) (.ok ())).1).all
       (fun cfg => cfg.ack_policy == AckPolicy.Explicit &&
         cfg.deliver_policy == DeliverPolicy.Last &&
         cfg.durable_name == "cn" && cfg.filter_subject == "tp" &&
         cfg.deliver_group == "qg") = true) ∧
     (¬((⟨120, 2⟩ : NatsConsumerConfig).num_replicas > 1 ∧ (none : Option String) = none) →
       (createConsumerBlock "tp" "st" "cn" "qg" "ib" ⟨120, 2⟩ none
          (.ok ⟨none, 0, [], 1⟩) (.ok ())).1 =
         [.consumerAdd "st" (mkAddCfg "tp" "st" "cn" "qg" "ib" ⟨120, 2⟩)]) ∧
     ((⟨120, 2⟩ : NatsConsumerConfig).num_replicas > 1 ∧ (none : Option String) = none →
       (∀ si : StreamCfg, (.ok ⟨none, 0, [], 1⟩ : Except JsErr StreamCfg) = .ok si →
         (createConsumerBlock "tp" "st" "cn" "qg" "ib" ⟨120, 2⟩ none
            (.ok ⟨none, 0, [], 1⟩) (.ok ())).1 =
           [.warn warnMsg, .streamInfo "st",
            .consumerAdd "st" (mkAddCfg "tp" "st" "cn" "qg" "ib"
              { (⟨120, 2⟩ : NatsConsumerConfig) with num_replicas := si.num_replicas })]) ∧
       (∀ e : JsErr, (.ok ⟨none, 0, [], 1⟩ : Except JsErr StreamCfg) = .error e →
         (createConsumerBlock "tp" "st" "cn" "qg" "ib" ⟨120, 2⟩ none
            (.ok ⟨none, 0, [], 1⟩) (.ok ())).1 =
           [.warn warnMsg, .streamInfo "st"]))) :=
  ⟨rfl,
    creation_on_absence "st" "cn" "tp" "qg" "ib" ⟨120, 2⟩ (.error (.nats 10014))
      (.error .other) (.ok ⟨none, 0, [], 1⟩) (.ok ()) (.ok ()) none rfl⟩
